import Mathlib

/-!
Verification development for the MathEquationSolver repository
(src/MathEquationSolver.py). The application-layer glue — the dispatcher
`solve_equation`, the helpers `format_step_solution`, `plot_graph` and
`solve_system` — is translated directly from the Python source. The
symbolic-algebra engine (parsing, solving, calculus, linear solving,
numeric evaluation) is an external black box per the specification; it is
modelled here from the spec's description of the capabilities, faithful on
the polynomial fragment the spec documents. Rational model values use an
unreduced-fraction representation `Frac` whose operations reduce inside
the kernel, so that concrete runs of the dispatcher can be checked by
`decide` and `rfl`.
-/

set_option maxRecDepth 8000

namespace MES

/-- Python `str.strip` whitespace set (space, tab, newline, carriage return,
vertical tab, form feed). -/
def isPyWhitespace (c : Char) : Bool :=
  c = ' ' || c = '\t' || c = '\n' || c = '\r' || c = '\x0b' || c = '\x0c'

/-- Characters of a string with leading and trailing Python whitespace removed,
modelling `str.strip()` (source line 86 and line 160). -/
def pyStripChars (l : List Char) : List Char :=
  ((l.dropWhile isPyWhitespace).reverse.dropWhile isPyWhitespace).reverse

/-- Python `str.strip()` on a string. -/
def pyStrip (s : String) : String :=
  String.mk (pyStripChars s.data)

/-- Whether `s` begins with `pre` (a kernel-reducible `String.startsWith`). -/
def strStartsWith (s pre : String) : Bool :=
  pre.data.isPrefixOf s.data

/-- Python `str.split(sep)` for a one-character separator: `"".split(',')`
gives `[""]`, and every separator occurrence opens a new piece. -/
def splitOnChar (c : Char) : List Char → List (List Char)
  | [] => [[]]
  | a :: as =>
    let r := splitOnChar c as
    if a = c then [] :: r
    else
      match r with
      | h :: t => (a :: h) :: t
      | [] => [[a]]

/-- Euclid's algorithm with explicit fuel, so that it reduces in the
kernel; the initial fuel always suffices. -/
def natGcdAux : ℕ → ℕ → ℕ → ℕ
  | 0, _, b => b
  | _ + 1, 0, b => b
  | fuel + 1, a + 1, b => natGcdAux fuel (b % (a + 1)) (a + 1)

/-- Greatest common divisor (fuel-based). -/
def natGcd (a b : ℕ) : ℕ := natGcdAux (a + b + 1) a b

/-- Newton iteration for the integer square root, with explicit fuel. -/
def natSqrtAux : ℕ → ℕ → ℕ → ℕ
  | 0, _, g => g
  | fuel + 1, n, g =>
    let next := (g + n / g) / 2
    if next < g then natSqrtAux fuel n next else g

/-- Integer square root (fuel-based). -/
def natSqrt (n : ℕ) : ℕ :=
  if n ≤ 1 then n else natSqrtAux n n (n / 2)

/-- A rational number as an unreduced fraction with positive denominator.
Every operation below keeps the denominator positive; values are compared
by cross-multiplication, so unreduced representatives are harmless. This
stands in for the engine's exact rational arithmetic. -/
structure Frac where
  n : ℤ
  d : ℤ
  deriving DecidableEq, Repr

instance : OfNat Frac k := ⟨⟨(k : ℤ), 1⟩⟩

/-- The fraction `i / 1`. -/
def Frac.ofInt (i : ℤ) : Frac := ⟨i, 1⟩

/-- The fraction `k / 1`. -/
def Frac.ofNat (k : ℕ) : Frac := ⟨(k : ℤ), 1⟩

/-- Value equality of fractions (cross-multiplication). -/
def fracEq (a b : Frac) : Bool := a.n * b.d == b.n * a.d

/-- Value order on fractions (denominators are positive). -/
def fracLe (a b : Frac) : Bool := decide (a.n * b.d ≤ b.n * a.d)

/-- Sum of fractions. -/
def fracAdd (a b : Frac) : Frac := ⟨a.n * b.d + b.n * a.d, a.d * b.d⟩

/-- Negation of a fraction. -/
def fracNeg (a : Frac) : Frac := ⟨-a.n, a.d⟩

instance : Neg Frac := ⟨fracNeg⟩

/-- Difference of fractions. -/
def fracSub (a b : Frac) : Frac := fracAdd a (fracNeg b)

/-- Product of fractions. -/
def fracMul (a b : Frac) : Frac := ⟨a.n * b.n, a.d * b.d⟩

/-- Reciprocal of a fraction, keeping the denominator positive; the
reciprocal of zero is zero (matching the model's total division). -/
def fracInv (a : Frac) : Frac :=
  if a.n = 0 then ⟨0, 1⟩
  else if a.n < 0 then ⟨-a.d, -a.n⟩
  else ⟨a.d, a.n⟩

/-- Quotient of fractions. -/
def fracDiv (a b : Frac) : Frac := fracMul a (fracInv b)

/-- Natural power of a fraction. -/
def fracPow (a : Frac) : ℕ → Frac
  | 0 => 1
  | k + 1 => fracMul a (fracPow a k)

/-- Integer power of a fraction. -/
def fracZpow (a : Frac) : ℤ → Frac
  | .ofNat k => fracPow a k
  | .negSucc k => fracInv (fracPow a (k + 1))

/-- Whether a fraction denotes an integer. -/
def fracIsInt (a : Frac) : Bool := a.n % a.d == 0

/-- The integer a fraction denotes (exact for integral fractions). -/
def fracToInt (a : Frac) : ℤ := a.n / a.d

/-- Lowest-terms representative of a fraction. -/
def normFrac (q : Frac) : Frac :=
  let g := natGcd q.n.natAbs q.d.toNat
  if g = 0 then ⟨0, 1⟩ else ⟨q.n / (g : ℤ), q.d / (g : ℤ)⟩

/-- The value of a fraction as a Mathlib rational (used only in statements
about the plot samples, never inside kernel evaluation). -/
def Frac.toRat (q : Frac) : ℚ := (q.n : ℚ) / (q.d : ℚ)

/-- Modelled from the spec: the engine's symbolic expression tree
("ParsedExpression: opaque symbolic expression tree owned by the algebra
engine"). Rational constants, symbols and the arithmetic operators the
input grammar offers. -/
inductive Expr where
  | num (q : Frac)
  | sym (s : String)
  | add (a b : Expr)
  | sub (a b : Expr)
  | mul (a b : Expr)
  | div (a b : Expr)
  | pow (a b : Expr)
  deriving DecidableEq, Repr

/-- Modelled from the spec: a value returned by the engine's parser — a single
expression, or the tuple a comma-separated input denotes. -/
inductive SVal where
  | one (e : Expr)
  | many (es : List Expr)
  deriving DecidableEq, Repr

/-- Tokens of the expression grammar. -/
inductive Tok where
  | tnum (k : ℕ)
  | ident (s : String)
  | plus
  | minus
  | star
  | slash
  | dstar
  | lparen
  | rparen
  | comma
  deriving DecidableEq, Repr

/-- Numeric value of a digit string. -/
def digitsVal (l : List Char) : ℕ :=
  l.foldl (fun a c => a * 10 + (c.toNat - 48)) 0

/-- First character of an identifier. -/
def isIdentFirst (c : Char) : Bool := c.isAlpha || c = '_'

/-- Later character of an identifier. -/
def isIdentRest (c : Char) : Bool := c.isAlphanum || c = '_'

/-- Modelled from the spec: the tokenizer of the engine's parser. An `=` or
any other unexpected character is a syntax error — the engine "rejects"
such input (spec §7, ParseOrSolveError). Fuel-recursive so that it reduces
in the kernel; the initial fuel always suffices. -/
def lex : ℕ → List Char → Except String (List Tok)
  | 0, _ => .error ("lexer fuel exhausted")
  | _ + 1, [] => .ok []
  | fuel + 1, c :: cs =>
    if isPyWhitespace c then lex fuel cs
    else if c.isDigit then
      let ds := cs.takeWhile Char.isDigit
      let rest := cs.dropWhile Char.isDigit
      (lex fuel rest).map (fun ts => Tok.tnum (digitsVal (c :: ds)) :: ts)
    else if isIdentFirst c then
      let ds := cs.takeWhile isIdentRest
      let rest := cs.dropWhile isIdentRest
      (lex fuel rest).map (fun ts => Tok.ident (String.mk (c :: ds)) :: ts)
    else if c = '+' then (lex fuel cs).map (fun ts => Tok.plus :: ts)
    else if c = '-' then (lex fuel cs).map (fun ts => Tok.minus :: ts)
    else if c = '*' then
      match cs with
      | '*' :: cs2 => (lex fuel cs2).map (fun ts => Tok.dstar :: ts)
      | _ => (lex fuel cs).map (fun ts => Tok.star :: ts)
    else if c = '/' then (lex fuel cs).map (fun ts => Tok.slash :: ts)
    else if c = '(' then (lex fuel cs).map (fun ts => Tok.lparen :: ts)
    else if c = ')' then (lex fuel cs).map (fun ts => Tok.rparen :: ts)
    else if c = ',' then (lex fuel cs).map (fun ts => Tok.comma :: ts)
    else .error ("invalid syntax")

/-- Unary minus as the engine applies it: a literal is negated, anything else
becomes a product with `-1`. -/
def negE (e : Expr) : Expr :=
  match e with
  | .num q => .num (fracNeg q)
  | e2 => .mul (.num (-1)) e2

/-- Precedence levels of the recursive-descent parser: 0 the additive
level, 1 its operator chain, 2 the multiplicative level, 3 its operator
chain, 4 unary signs, 5 powers, 6 atoms. One fuelled function covers all
levels so that it is structurally recursive and reduces in the kernel; the
second component is the chain accumulator (meaningful at levels 1 and 3). -/
def parseL : ℕ → ℕ → Expr → List Tok → Except String (Expr × List Tok)
  | 0, _, _, _ => .error ("invalid syntax")
  | fuel + 1, 0, _, ts => do
    let (e, ts1) ← parseL fuel 2 (Expr.num 0) ts
    parseL fuel 1 e ts1
  | fuel + 1, 1, acc, Tok.plus :: ts => do
    let (e, ts1) ← parseL fuel 2 (Expr.num 0) ts
    parseL fuel 1 (Expr.add acc e) ts1
  | fuel + 1, 1, acc, Tok.minus :: ts => do
    let (e, ts1) ← parseL fuel 2 (Expr.num 0) ts
    parseL fuel 1 (Expr.sub acc e) ts1
  | _ + 1, 1, acc, ts => .ok (acc, ts)
  | fuel + 1, 2, _, ts => do
    let (e, ts1) ← parseL fuel 4 (Expr.num 0) ts
    parseL fuel 3 e ts1
  | fuel + 1, 3, acc, Tok.star :: ts => do
    let (e, ts1) ← parseL fuel 4 (Expr.num 0) ts
    parseL fuel 3 (Expr.mul acc e) ts1
  | fuel + 1, 3, acc, Tok.slash :: ts => do
    let (e, ts1) ← parseL fuel 4 (Expr.num 0) ts
    parseL fuel 3 (Expr.div acc e) ts1
  | _ + 1, 3, acc, ts => .ok (acc, ts)
  | fuel + 1, 4, _, Tok.minus :: ts =>
    (parseL fuel 4 (Expr.num 0) ts).map (fun p => (negE p.1, p.2))
  | fuel + 1, 4, _, Tok.plus :: ts => parseL fuel 4 (Expr.num 0) ts
  | fuel + 1, 4, _, ts => parseL fuel 5 (Expr.num 0) ts
  | fuel + 1, 5, _, ts => do
    let (a, ts1) ← parseL fuel 6 (Expr.num 0) ts
    match ts1 with
    | Tok.dstar :: ts2 => do
      let (b, ts3) ← parseL fuel 4 (Expr.num 0) ts2
      .ok (Expr.pow a b, ts3)
    | _ => .ok (a, ts1)
  | _ + 1, 6, _, Tok.tnum k :: ts => .ok (Expr.num (Frac.ofNat k), ts)
  | _ + 1, 6, _, Tok.ident s :: ts => .ok (Expr.sym s, ts)
  | fuel + 1, 6, _, Tok.lparen :: ts => do
    let (e, ts1) ← parseL fuel 0 (Expr.num 0) ts
    match ts1 with
    | Tok.rparen :: ts2 => .ok (e, ts2)
    | _ => .error ("invalid syntax")
  | _ + 1, _, _, _ => .error ("invalid syntax")

/-- One full expression starting from the additive level, with generous
fuel. -/
def parseExpr (ts : List Tok) : Except String (Expr × List Tok) :=
  parseL (8 * ts.length + 16) 0 (Expr.num 0) ts

/-- Comma-separated list of expressions (a top-level tuple). -/
def parseTop : ℕ → List Tok → Except String (List Expr × List Tok)
  | 0, _ => .error ("invalid syntax")
  | fuel + 1, ts => do
    let (e, ts1) ← parseExpr ts
    match ts1 with
    | Tok.comma :: ts2 =>
      (parseTop fuel ts2).map (fun p => (e :: p.1, p.2))
    | _ => .ok ([e], ts1)

/-- Modelled from the spec: `sympify` on a raw string — tokenize and parse,
yielding one expression or a tuple, rejecting anything malformed (an `=`
sign, unbalanced parentheses, an empty string). -/
def sympifyModel (s : String) : Except String SVal := do
  let ts ← lex (s.data.length + 1) s.data
  let (es, rest) ← parseTop (ts.length + 1) ts
  if rest = [] then
    match es with
    | [e] => .ok (SVal.one e)
    | es2 => .ok (SVal.many es2)
  else .error ("invalid syntax")

/-- Modelled from the spec: `sympify` on a single comma-free segment of a
system of equations. -/
def sympifyExprChars (l : List Char) : Except String Expr := do
  let ts ← lex (l.length + 1) l
  let (es, rest) ← parseTop (ts.length + 1) ts
  match es, rest with
  | [e], [] => .ok e
  | _, _ => .error ("invalid syntax")

/-- Modelled from the spec: the free variable names of an expression
("Free variable: a symbol appearing in an expression that is not bound"),
with multiplicity, in syntactic order. -/
def freeSyms : Expr → List String
  | .num _ => []
  | .sym s => [s]
  | .add a b => freeSyms a ++ freeSyms b
  | .sub a b => freeSyms a ++ freeSyms b
  | .mul a b => freeSyms a ++ freeSyms b
  | .div a b => freeSyms a ++ freeSyms b
  | .pow a b => freeSyms a ++ freeSyms b

/-- Lexicographic order on character lists by code point, as Python compares
strings. -/
def charListLt : List Char → List Char → Bool
  | [], [] => false
  | [], _ :: _ => true
  | _ :: _, [] => false
  | a :: as, b :: bs =>
    if a.toNat < b.toNat then true
    else if b.toNat < a.toNat then false
    else charListLt as bs

/-- Lexicographic order on strings. -/
def strLt (a b : String) : Bool := charListLt a.data b.data

/-- Insert a name into a sorted duplicate-free list, keeping it sorted and
duplicate-free. -/
def strInsert (s : String) : List String → List String
  | [] => [s]
  | t :: ts =>
    if s = t then t :: ts
    else if strLt s t then s :: t :: ts
    else t :: strInsert s ts

/-- The set of free variable names across a list of expressions, sorted
lexicographically (source line 166 and line 168). -/
def sortedVars (es : List Expr) : List String :=
  ((es.map freeSyms).flatten).foldl (fun acc s => strInsert s acc) []

/-- Addition with the folding the engine applies when it builds expressions. -/
def mkAdd (a b : Expr) : Expr :=
  match a, b with
  | .num x, .num y => .num (fracAdd x y)
  | .num x, b2 => if fracEq x 0 then b2 else .add (.num x) b2
  | a2, .num y => if fracEq y 0 then a2 else .add a2 (.num y)
  | a2, b2 => .add a2 b2

/-- Subtraction with constant folding. -/
def mkSub (a b : Expr) : Expr :=
  match a, b with
  | .num x, .num y => .num (fracSub x y)
  | a2, .num y => if fracEq y 0 then a2 else .sub a2 (.num y)
  | .num x, b2 => if fracEq x 0 then negE b2 else .sub (.num x) b2
  | a2, b2 => .sub a2 b2

/-- Multiplication with constant folding. -/
def mkMul (a b : Expr) : Expr :=
  match a, b with
  | .num x, .num y => .num (fracMul x y)
  | .num x, b2 =>
    if fracEq x 0 then .num 0 else if fracEq x 1 then b2 else .mul (.num x) b2
  | a2, .num y =>
    if fracEq y 0 then .num 0 else if fracEq y 1 then a2 else .mul a2 (.num y)
  | a2, b2 => .mul a2 b2

/-- Division with constant folding. -/
def mkDiv (a b : Expr) : Expr :=
  match a, b with
  | .num x, .num y =>
    if fracEq y 0 then .div (.num x) (.num y) else .num (fracDiv x y)
  | a2, .num y => if fracEq y 1 then a2 else .div a2 (.num y)
  | a2, b2 => .div a2 b2

/-- Exponentiation with constant folding. -/
def mkPow (a b : Expr) : Expr :=
  match a, b with
  | .num x, .num y =>
    if fracIsInt y then .num (fracZpow x (fracToInt y)) else .pow (.num x) (.num y)
  | a2, .num y =>
    if fracEq y 0 then .num 1 else if fracEq y 1 then a2 else .pow a2 (.num y)
  | a2, b2 => .pow a2 b2

/-- Modelled from the spec: the engine's first derivative with respect to `x`
(`sp.diff(expr, x)`, source line 102). Symbols other than `x` are treated as
constants. Faithful on the polynomial/rational fragment the spec documents;
a power with a non-constant exponent is outside the model's scope. -/
def diffE : Expr → Expr
  | .num _ => .num 0
  | .sym s => if s = "x" then .num 1 else .num 0
  | .add a b => mkAdd (diffE a) (diffE b)
  | .sub a b => mkSub (diffE a) (diffE b)
  | .mul a b => mkAdd (mkMul (diffE a) b) (mkMul a (diffE b))
  | .div a b =>
    mkDiv (mkSub (mkMul (diffE a) b) (mkMul a (diffE b))) (mkPow b (.num 2))
  | .pow a b =>
    match b with
    | .num k =>
      if fracIsInt k then
        mkMul (mkMul (.num k) (mkPow a (.num (fracSub k 1)))) (diffE a)
      else .num 0
    | _ => .num 0

/-- Drop trailing zero coefficients (the highest degrees) of a dense
polynomial. -/
def polyTrim (p : List Frac) : List Frac :=
  (p.reverse.dropWhile (fun c => fracEq c 0)).reverse

/-- Coefficientwise sum of dense polynomials. -/
def polyAdd : List Frac → List Frac → List Frac
  | [], q => q
  | p, [] => p
  | a :: p, b :: q => fracAdd a b :: polyAdd p q

/-- Scale a dense polynomial. -/
def polyScale (c : Frac) (p : List Frac) : List Frac :=
  p.map (fun a => fracMul c a)

/-- Product of dense polynomials. -/
def polyMul : List Frac → List Frac → List Frac
  | [], _ => []
  | a :: p, q => polyAdd (polyScale a q) ((0 : Frac) :: polyMul p q)

/-- Power of a dense polynomial. -/
def polyPow (p : List Frac) : ℕ → List Frac
  | 0 => [1]
  | k + 1 => polyMul p (polyPow p k)

/-- The constant a polynomial denotes, when it is constant. -/
def constOf (p : List Frac) : Option Frac :=
  match polyTrim p with
  | [] => some 0
  | [c] => some c
  | _ => none

/-- View an expression as a dense univariate polynomial in `x` over the
rationals, when it is one. -/
def toPolyX : Expr → Option (List Frac)
  | .num q => some [q]
  | .sym s => if s = "x" then some [0, 1] else none
  | .add a b => do
    let p ← toPolyX a
    let q ← toPolyX b
    pure (polyAdd p q)
  | .sub a b => do
    let p ← toPolyX a
    let q ← toPolyX b
    pure (polyAdd p (polyScale (-1) q))
  | .mul a b => do
    let p ← toPolyX a
    let q ← toPolyX b
    pure (polyMul p q)
  | .div a b => do
    let p ← toPolyX a
    let q ← toPolyX b
    match constOf q with
    | some c => if fracEq c 0 then none else pure (polyScale (fracInv c) p)
    | none => none
  | .pow a b =>
    match b with
    | .num k =>
      if fracIsInt k && fracLe 0 k then do
        let p ← toPolyX a
        pure (polyPow p (fracToInt k).toNat)
      else none
    | _ => none

/-- Coefficients `k * c_k` used by the polynomial derivative. -/
def polyDerivAux : ℕ → List Frac → List Frac
  | _, [] => []
  | k, c :: p => fracMul (Frac.ofNat k) c :: polyDerivAux (k + 1) p

/-- Derivative of a dense polynomial. -/
def polyDeriv (p : List Frac) : List Frac :=
  polyTrim ((polyDerivAux 0 p).drop 1)

/-- Coefficients `c_k / (k + 1)` used by the polynomial antiderivative. -/
def polyIntegAux : ℕ → List Frac → List Frac
  | _, [] => []
  | k, c :: p => fracDiv c (Frac.ofNat (k + 1)) :: polyIntegAux (k + 1) p

/-- Antiderivative (with zero constant term) of a dense polynomial. -/
def polyInteg (p : List Frac) : List Frac :=
  polyTrim ((0 : Frac) :: polyIntegAux 0 p)

/-- The engine's printed form of a rational constant: integers plainly,
other rationals as `p/q` in lowest terms. -/
def ratStr (q : Frac) : String :=
  let qn := normFrac q
  if qn.d = 1 then toString qn.n
  else toString qn.n ++ "/" ++ toString qn.d

/-- Precedence of an expression head for printing. -/
def exprPrec : Expr → ℕ
  | .num _ => 4
  | .sym _ => 4
  | .add _ _ => 1
  | .sub _ _ => 1
  | .mul _ _ => 2
  | .div _ _ => 2
  | .pow _ _ => 3

/-- Wrap a printed subexpression in parentheses when its head binds looser
than the context demands. -/
def parenWrap (ctx : ℕ) (e : Expr) (s : String) : String :=
  if exprPrec e < ctx then "(" ++ s ++ ")" else s

/-- Modelled from the spec: the engine's string form of an expression
(`str(expr)` as used by the f-strings on source lines 103 and 108 and the
plot label on line 138). -/
def exprStr : Expr → String
  | .num q => ratStr q
  | .sym s => s
  | .add a b =>
    parenWrap 1 a (exprStr a) ++ " + " ++ parenWrap 2 b (exprStr b)
  | .sub a b =>
    parenWrap 1 a (exprStr a) ++ " - " ++ parenWrap 2 b (exprStr b)
  | .mul a b =>
    match a with
    | .num q =>
      if fracEq q (-1) then "-" ++ parenWrap 2 b (exprStr b)
      else parenWrap 2 (Expr.num q) (ratStr q) ++ "*" ++ parenWrap 3 b (exprStr b)
    | a2 => parenWrap 2 a2 (exprStr a2) ++ "*" ++ parenWrap 3 b (exprStr b)
  | .div a b =>
    parenWrap 2 a (exprStr a) ++ "/" ++ parenWrap 3 b (exprStr b)
  | .pow a b =>
    parenWrap 4 a (exprStr a) ++ "**" ++ parenWrap 3 b (exprStr b)

/-- Join a list of printed expressions with a separator. -/
def joinSep (sep : String) : List String → String
  | [] => ""
  | [a] => a
  | a :: rest => a ++ sep ++ joinSep sep rest

/-- Printed form of a parse result (a tuple prints parenthesised). -/
def svalStr : SVal → String
  | .one e => exprStr e
  | .many es => "(" ++ joinSep (", ") (es.map exprStr) ++ ")"

/-- One printed monomial `c * x^n` in the engine's style. -/
def polyTermExpr (c : Frac) (k : ℕ) : Expr :=
  if k = 0 then .num c
  else
    let cn := normFrac c
    let xp : Expr := if k = 1 then .sym ("x") else .pow (.sym ("x")) (.num (Frac.ofNat k))
    if cn = ⟨1, 1⟩ then xp
    else if cn = ⟨-1, 1⟩ then .mul (.num (-1)) xp
    else if cn.d = 1 then .mul (.num (Frac.ofInt cn.n)) xp
    else if cn.n = 1 then .div xp (.num (Frac.ofInt cn.d))
    else if cn.n = -1 then .mul (.num (-1)) (.div xp (.num (Frac.ofInt cn.d)))
    else .div (.mul (.num (Frac.ofInt cn.n)) xp) (.num (Frac.ofInt cn.d))

/-- Nonzero monomials of a dense polynomial, ascending degree. -/
def polyTermsAux : ℕ → List Frac → List (Frac × ℕ)
  | _, [] => []
  | k, c :: p =>
    if fracEq c 0 then polyTermsAux (k + 1) p else (c, k) :: polyTermsAux (k + 1) p

/-- A dense polynomial as an expression, monomials in decreasing degree as
the engine prints them. -/
def polyToExpr (p : List Frac) : Expr :=
  match (polyTermsAux 0 p).reverse with
  | [] => .num 0
  | (c, k) :: rest =>
    rest.foldl
      (fun acc t =>
        if fracLe t.1 0 then Expr.sub acc (polyTermExpr (fracNeg t.1) t.2)
        else Expr.add acc (polyTermExpr t.1 t.2))
      (polyTermExpr c k)

/-- Modelled from the spec: the engine's indefinite integral with respect to
`x` (`sp.integrate(expr, x)`, source line 107), faithful on the polynomial
fragment; an expression outside it is returned unchanged (out of the
model's scope). -/
def integrateModel (e : Expr) : Expr :=
  match toPolyX e with
  | some p => polyToExpr (polyInteg p)
  | none => e

/-- Exact square root of a nonnegative rational, when it exists. -/
def fracSqrt (q : Frac) : Option Frac :=
  let qn := normFrac q
  if qn.n < 0 then none
  else
    let sn := natSqrt qn.n.toNat
    let sd := natSqrt qn.d.toNat
    if sn * sn = qn.n.toNat ∧ sd * sd = qn.d.toNat then
      some ⟨(sn : ℤ), (sd : ℤ)⟩
    else none

/-- Modelled from the spec: the engine's all-roots solve of `expr = 0` with
respect to `x` (`sp.solve(expr, x)`, source line 97), in the engine's
canonical (ascending) order. Faithful for univariate polynomials of degree
at most two with rational roots — the spec's documented domain; outside
that fragment the model reports no roots. -/
def solveModel (e : Expr) : List Frac :=
  match toPolyX e with
  | none => []
  | some p =>
    match polyTrim p with
    | [] => []
    | [_] => []
    | [b, a] => [fracDiv (fracNeg b) a]
    | [c, b, a] =>
      match fracSqrt (fracSub (fracMul b b) (fracMul (fracMul 4 a) c)) with
      | none => []
      | some d =>
        if fracEq d 0 then [fracDiv (fracNeg b) (fracMul 2 a)]
        else
          let r1 := fracDiv (fracSub (fracNeg b) d) (fracMul 2 a)
          let r2 := fracDiv (fracAdd (fracNeg b) d) (fracMul 2 a)
          if fracLe r1 r2 then [r1, r2] else [r2, r1]
    | _ => []

/-- Derivative of a parse result (a tuple differentiates componentwise). -/
def diffS : SVal → SVal
  | .one e => .one (diffE e)
  | .many es => .many (es.map diffE)

/-- Integral of a parse result. -/
def integrateS : SVal → SVal
  | .one e => .one (integrateModel e)
  | .many es => .many (es.map integrateModel)

/-- Roots of a parse result (only a single expression has them in the
model). -/
def solveS : SVal → List Frac
  | .one e => solveModel e
  | .many _ => []

/-- Number of decimal digits of a natural number. -/
def natDigits (k : ℕ) : ℕ := (toString k).length

/-- Number of zeros between the decimal point and the first significant digit
of a positive rational below one (fuel-bounded search). -/
def fracLeadZeros : ℕ → Frac → ℕ
  | 0, _ => 0
  | fuel + 1, a =>
    if fracLe 1 (fracMul a 10) then 0 else fracLeadZeros fuel (fracMul a 10) + 1

/-- Round a nonnegative fraction to the nearest natural number. -/
def fracRound (q : Frac) : ℕ :=
  let r := fracAdd q ⟨1, 2⟩
  (r.n / r.d).toNat

/-- Modelled from the spec: the engine's numeric evaluation `sol.evalf()`
(source line 179) printed with 15 significant digits, the engine's default
float precision. -/
def evalfStr (q : Frac) : String :=
  if fracEq q 0 then "0"
  else
    let sgn := if q.n < 0 then "-" else ""
    let a : Frac := ⟨(q.n.natAbs : ℤ), q.d⟩
    if fracLe 1 a then
      let ip := (a.n / a.d).toNat
      let k := natDigits ip
      if 15 ≤ k then sgn ++ toString ip
      else
        let s := toString (fracRound (fracMul a (fracPow 10 (15 - k))))
        let p := s.length - (15 - k)
        sgn ++ s.take p ++ "." ++ s.drop p
    else
      let z := fracLeadZeros (natDigits q.d.toNat + 1) a
      let s := toString (fracRound (fracMul a (fracPow 10 (z + 15))))
      if s.length ≤ 15 then
        sgn ++ "0." ++ String.mk (List.replicate z '0') ++ s
      else
        sgn ++ "0." ++ String.mk (List.replicate (z - 1) '0') ++ s

/-- A rendered plot: the sampled points and the curve's label. -/
structure PlotData where
  points : List (ℚ × ℚ)
  label : String
  deriving DecidableEq, Repr

/-- The user-visible state the dispatcher mutates: the solution text area and
the plot canvas (source widgets `solution_output` and `ax`/`canvas`). -/
structure UIState where
  solutionOutput : String
  plot : Option PlotData
  deriving DecidableEq, Repr

/-- The state before a request. -/
def UIState.init : UIState := { solutionOutput := "", plot := none }

/-- The sample domain `np.linspace(-10, 10, 400)` of source line 132: 400
evenly spaced values from -10 to 10. -/
def xSamples : List ℚ :=
  (List.range 400).map (fun (i : ℕ) => -10 + 20 * (i : ℚ) / 399)

/-- Modelled from the spec: numeric evaluation of an expression at a sample
point (the lambdified function of source lines 136-137), with `x` bound to
the sample value. -/
def evalQ : Expr → ℚ → ℚ
  | .num q, _ => q.toRat
  | .sym s, v => if s = "x" then v else 0
  | .add a b, v => evalQ a v + evalQ b v
  | .sub a b, v => evalQ a v - evalQ b v
  | .mul a b, v => evalQ a v * evalQ b v
  | .div a b, v => evalQ a v / evalQ b v
  | .pow a b, v =>
    let be := evalQ b v
    if be.den = 1 then evalQ a v ^ be.num else 0

/-- Modelled from the spec: the PlotEvaluationError condition — "expression
not numerically evaluable over the sample domain" (spec §7), raised as the
`TypeError` of source line 140. An expression with a free symbol other than
`x`, or a tuple, is not numerically evaluable over the sample domain. -/
def plotTypeError : SVal → Bool
  | .one e => (freeSyms e).any (fun s => s != "x")
  | .many _ => true

/-- The plotting-specific message of source line 141. -/
def plotErrorMsg : String :=
  "Error: Unable to plot the function. Please enter a valid equation."

/-- Translation of `MathEquationSolver.plot_graph` (source lines 129-150):
clear the axes, sample 400 x-values in [-10, 10], evaluate the expression at
each; on an evaluation type error write the plotting-specific message into
the solution area and render nothing, otherwise render the labeled curve. -/
def plot_graph (st : UIState) (v : SVal) : UIState :=
  if plotTypeError v then
    { st with plot := none, solutionOutput := plotErrorMsg }
  else
    match v with
    | .one e =>
      { st with plot := some { points := xSamples.map (fun q => (q, evalQ e q)),
                               label := exprStr e } }
    | .many es =>
      { st with plot := some { points := [], label := svalStr (SVal.many es) } }

/-- Translation of the `=`-rewrite of source lines 161-163: a segment with an
`=` becomes `(left) - (right)`; more than one `=` makes the two-name
unpacking fail with a ValueError. -/
def rewriteSeg (seg : List Char) : Except String (List Char) :=
  match splitOnChar '=' seg with
  | [l, r] => .ok (("(").data ++ l ++ (") - (").data ++ r ++ (")").data)
  | [s0] => .ok s0
  | _ => .error ("too many values to unpack (expected 2)")

/-- Translation of the parsing loop of source lines 159-166: strip each
comma-separated segment, rewrite a `=` segment, parse it. -/
def parseSegs : List (List Char) → Except String (List Expr)
  | [] => .ok []
  | seg :: rest => do
    let seg2 ← rewriteSeg (pyStripChars seg)
    let e ← sympifyExprChars seg2
    let es ← parseSegs rest
    .ok (e :: es)

/-- The coefficient row of an expression that is linear over the given
ordered variables: coefficients aligned with the variable list, plus the
constant term. `none` marks a nonlinear expression. -/
def linOf (vars : List String) : Expr → Option (List Frac × Frac)
  | .num q => some (List.replicate vars.length 0, q)
  | .sym s =>
    if vars.contains s then
      some (vars.map (fun v => if v = s then 1 else 0), 0)
    else none
  | .add a b => do
    let (u, c) ← linOf vars a
    let (w, d) ← linOf vars b
    pure (polyAdd u w, fracAdd c d)
  | .sub a b => do
    let (u, c) ← linOf vars a
    let (w, d) ← linOf vars b
    pure (polyAdd u (polyScale (-1) w), fracSub c d)
  | .mul a b => do
    let (u, c) ← linOf vars a
    let (w, d) ← linOf vars b
    if u.all (fun q => fracEq q 0) then pure (polyScale c w, fracMul c d)
    else if w.all (fun q => fracEq q 0) then pure (polyScale d u, fracMul c d)
    else none
  | .div a b => do
    let (u, c) ← linOf vars a
    let (w, d) ← linOf vars b
    if w.all (fun q => fracEq q 0) && !(fracEq d 0) then
      pure (polyScale (fracInv d) u, fracDiv c d)
    else none
  | .pow a b =>
    match b with
    | .num k =>
      if fracEq k 0 then some (List.replicate vars.length 0, 1)
      else if fracEq k 1 then linOf vars a
      else do
        let (u, c) ← linOf vars a
        if u.all (fun q => fracEq q 0) && fracIsInt k && fracLe 0 k then
          pure (List.replicate vars.length 0, fracPow c (fracToInt k).toNat)
        else none
    | _ => none

/-- Modelled from the spec: the linear-solve capability raises on a nonlinear
equation; rows of the linear system otherwise. -/
def toRows (vars : List String) : List Expr → Except String (List (List Frac × Frac))
  | [] => .ok []
  | e :: es =>
    match linOf vars e with
    | none => .error ("nonlinear term encountered")
    | some r => (toRows vars es).map (fun rs => r :: rs)

/-- First row whose leading coefficient is nonzero, and the other rows. -/
def pickPivot : List (List Frac × Frac) → Option ((List Frac × Frac) × List (List Frac × Frac))
  | [] => none
  | r :: rs =>
    if fracEq (r.1.headD 0) 0 then
      match pickPivot rs with
      | none => none
      | some (p, rest) => some (p, r :: rest)
    else some (r, rs)

/-- Eliminate the leading variable of a row using the pivot row, and drop the
leading (now zero) coefficient. -/
def elimRow (piv : List Frac × Frac) (r : List Frac × Frac) : List Frac × Frac :=
  let f := fracDiv (r.1.headD 0) (piv.1.headD 0)
  ((polyAdd r.1 (polyScale (fracNeg f) piv.1)).drop 1, fracSub r.2 (fracMul f piv.2))

/-- Modelled from the spec: the linear-solve capability (`sp.linsolve`,
source line 169) over rows `coeffs · vars + const = 0`. `none` is the empty
solution set (an inconsistent system); otherwise one satisfying assignment
is returned (the first solution tuple; a free variable is fixed at 0). -/
def gaussSolve : (nv : ℕ) → List (List Frac × Frac) → Option (List Frac)
  | 0, rows => if rows.all (fun r => fracEq r.2 0) then some [] else none
  | nv + 1, rows =>
    match pickPivot rows with
    | none =>
      match gaussSolve nv (rows.map (fun r => (r.1.drop 1, r.2))) with
      | none => none
      | some vs => some (0 :: vs)
    | some (piv, rest) =>
      match gaussSolve nv (rest.map (elimRow piv)) with
      | none => none
      | some vs =>
        let a := piv.1.headD 0
        let dotv := ((piv.1.drop 1).zipWith (fun c x => fracMul c x) vs).foldl
          (fun s t => fracAdd s t) 0
        some (fracDiv (fracSub (fracNeg piv.2) dotv) a :: vs)

/-- The `try` block of `MathEquationSolver.solve_system` (source lines
154-182): parse the comma-separated segments, collect the sorted variables,
run the linear solve; an empty solution set reports "No solution found.",
otherwise the first solution tuple is numerically evaluated and formatted
as `var = value` pairs joined by five spaces. -/
def solve_system_body (s : String) : Except String String := do
  let es ← parseSegs (splitOnChar ',' s.data)
  let vars := sortedVars es
  let rows ← toRows vars es
  match gaussSolve vars.length rows with
  | none => .ok ("No solution found.")
  | some sol =>
    .ok (joinSep ("     ") (vars.zipWith (fun v q => v ++ " = " ++ evalfStr q) sol))

/-- Translation of `MathEquationSolver.solve_system` (source lines 152-184):
the try block's result, with any exception caught and surfaced as
`"Error solving system: <message>"` (source lines 183-184). -/
def solve_system (s : String) : String :=
  match solve_system_body s with
  | .ok r => r
  | .error e => "Error solving system: " ++ e

/-- One engine or renderer invocation issued by the dispatcher, recorded for
the frame conditions ("without invoking the algebra engine", "no plot is
produced for this mode"). -/
inductive EngineCall where
  | sympifyCall (arg : String)
  | solveCall (v : SVal)
  | diffCall (v : SVal)
  | integrateCall (v : SVal)
  | systemCall (arg : String)
  | plotCall (v : SVal)
  deriving DecidableEq, Repr

/-- Translation of `MathEquationSolver.format_step_solution` (source lines
122-127): "Solutions:", a newline, then `x{i+1} = {sol}` followed by five
spaces for every solution. -/
def format_step_solution (solutions : List Frac) : String :=
  (solutions.foldl
    (fun acc sol =>
      (acc.1 ++ "x" ++ toString acc.2 ++ " = " ++ ratStr sol ++ "     ", acc.2 + 1))
    (("Solutions:\n", 1) : String × ℕ)).1

/-- The enumerated solution list `x1 = r1     x2 = r2     …` (five spaces
after every entry), starting the numbering at `k`. -/
def enumSolutions : ℕ → List Frac → String
  | _, [] => ""
  | k, q :: rest =>
    "x" ++ toString k ++ " = " ++ ratStr q ++ "     " ++ enumSolutions (k + 1) rest

/-- Translation of `MathEquationSolver.solve_equation` (source lines 84-120):
strip the input; an empty string prompts for an equation; otherwise sympify
the whole raw text, branch on the selected equation type, and show the
formatted result — any exception surfacing as `"Error: <message>"`. The
second component records the engine and renderer calls made. -/
def solve_equation (st : UIState) (eq_type : String) (raw : String) :
    UIState × List EngineCall :=
  let equation_str := pyStrip raw
  if equation_str = "" then
    ({ st with solutionOutput := "Please enter an equation." }, [])
  else
    match sympifyModel equation_str with
    | .error e =>
      ({ st with solutionOutput := "Error: " ++ e },
       [EngineCall.sympifyCall equation_str])
    | .ok expr =>
      if eq_type = "Algebraic Equation" then
        let formatted := format_step_solution (solveS expr)
        let st2 := plot_graph st expr
        ({ st2 with solutionOutput := formatted },
         [EngineCall.sympifyCall equation_str, EngineCall.solveCall expr,
          EngineCall.plotCall expr])
      else if eq_type = "Differentiation" then
        let formatted := "f'(x) = " ++ svalStr (diffS expr)
        let st2 := plot_graph st expr
        ({ st2 with solutionOutput := formatted },
         [EngineCall.sympifyCall equation_str, EngineCall.diffCall expr,
          EngineCall.plotCall expr])
      else if eq_type = "Integration" then
        let formatted := "âˆ«f(x) dx = " ++ svalStr (integrateS expr) ++ " + C"
        let st2 := plot_graph st expr
        ({ st2 with solutionOutput := formatted },
         [EngineCall.sympifyCall equation_str, EngineCall.integrateCall expr,
          EngineCall.plotCall expr])
      else if eq_type = "System of Equations" then
        ({ st with solutionOutput := solve_system equation_str },
         [EngineCall.sympifyCall equation_str, EngineCall.systemCall equation_str])
      else
        ({ st with solutionOutput := "Invalid selection." },
         [EngineCall.sympifyCall equation_str])

/-- Stripping a whitespace-only string yields the empty string. -/
theorem pyStrip_of_all_ws (raw : String) (h : raw.data.all isPyWhitespace = true) :
    pyStrip raw = "" := by
  have h1 : raw.data.dropWhile isPyWhitespace = [] :=
    List.dropWhile_eq_nil_iff.mpr (by simpa [List.all_eq_true] using h)
  simp [pyStrip, pyStripChars, h1]

/-- The empty-input branch of the dispatcher: prompt, no engine call, no
other state change. -/
theorem solveEq_empty (st : UIState) (mode raw : String) (h : pyStrip raw = "") :
    solve_equation st mode raw =
      ({ st with solutionOutput := "Please enter an equation." }, []) := by
  simp [solve_equation, h]

/-- The catch-all branch of the dispatcher: a sympify failure surfaces as
`"Error: <message>"`. -/
theorem solveEq_sympify_error (st : UIState) (mode raw msg : String)
    (hne : ¬ pyStrip raw = "") (he : sympifyModel (pyStrip raw) = .error msg) :
    solve_equation st mode raw =
      ({ st with solutionOutput := "Error: " ++ msg },
       [EngineCall.sympifyCall (pyStrip raw)]) := by
  simp [solve_equation, hne, he]

/-- The Algebraic Equation branch of the dispatcher. -/
theorem solveEq_algebraic (st : UIState) (raw : String) (v : SVal)
    (hne : ¬ pyStrip raw = "") (hok : sympifyModel (pyStrip raw) = .ok v) :
    solve_equation st ("Algebraic Equation") raw =
      ({ plot_graph st v with solutionOutput := format_step_solution (solveS v) },
       [EngineCall.sympifyCall (pyStrip raw), EngineCall.solveCall v,
        EngineCall.plotCall v]) := by
  simp [solve_equation, hne, hok]

/-- The Differentiation branch of the dispatcher. -/
theorem solveEq_diff (st : UIState) (raw : String) (v : SVal)
    (hne : ¬ pyStrip raw = "") (hok : sympifyModel (pyStrip raw) = .ok v) :
    solve_equation st ("Differentiation") raw =
      ({ plot_graph st v with solutionOutput := "f'(x) = " ++ svalStr (diffS v) },
       [EngineCall.sympifyCall (pyStrip raw), EngineCall.diffCall v,
        EngineCall.plotCall v]) := by
  simp [solve_equation, hne, hok]

/-- The Integration branch of the dispatcher. -/
theorem solveEq_integration (st : UIState) (raw : String) (v : SVal)
    (hne : ¬ pyStrip raw = "") (hok : sympifyModel (pyStrip raw) = .ok v) :
    solve_equation st ("Integration") raw =
      ({ plot_graph st v with
          solutionOutput := "âˆ«f(x) dx = " ++ svalStr (integrateS v) ++ " + C" },
       [EngineCall.sympifyCall (pyStrip raw), EngineCall.integrateCall v,
        EngineCall.plotCall v]) := by
  simp [solve_equation, hne, hok]

/-- The System of Equations branch of the dispatcher. -/
theorem solveEq_system (st : UIState) (raw : String) (v : SVal)
    (hne : ¬ pyStrip raw = "") (hok : sympifyModel (pyStrip raw) = .ok v) :
    solve_equation st ("System of Equations") raw =
      ({ st with solutionOutput := solve_system (pyStrip raw) },
       [EngineCall.sympifyCall (pyStrip raw),
        EngineCall.systemCall (pyStrip raw)]) := by
  simp [solve_equation, hne, hok]

/-- The formatter's fold, written as a plain recursion over the solutions. -/
theorem format_step_solution_eq (sols : List Frac) :
    format_step_solution sols = "Solutions:\n" ++ enumSolutions 1 sols := by
  suffices h : ∀ (acc : String) (k : ℕ),
      (sols.foldl
        (fun a sol =>
          (a.1 ++ "x" ++ toString a.2 ++ " = " ++ ratStr sol ++ "     ", a.2 + 1))
        ((acc, k) : String × ℕ)).1 = acc ++ enumSolutions k sols by
    simpa [format_step_solution] using h ("Solutions:\n") 1
  induction sols with
  | nil => intro acc k; simp [enumSolutions]
  | cons q rest ih =>
    intro acc k
    simp only [List.foldl_cons, enumSolutions]
    rw [ih]
    simp [String.append_assoc]

/-- The sample list has exactly 400 entries. -/
theorem xSamples_length : xSamples.length = 400 := by
  simp only [xSamples, List.length_map, List.length_range]

/-- Closed form of the i-th sample point. -/
theorem xSamples_get (i : ℕ) (h : i < xSamples.length) :
    xSamples.get ⟨i, h⟩ = -10 + 20 * (i : ℚ) / 399 := by
  simp only [xSamples, List.get_eq_getElem, List.getElem_map, List.getElem_range]

/-- Consecutive sample points are 20/399 apart: the spacing is even. -/
theorem xSamples_spacing (i : ℕ) (h1 : i + 1 < xSamples.length)
    (h2 : i < xSamples.length) :
    xSamples.get ⟨i + 1, h1⟩ - xSamples.get ⟨i, h2⟩ = 20 / 399 := by
  rw [xSamples_get, xSamples_get]
  push_cast
  ring

/-- Every sample point lies in the interval [-10, 10]. -/
theorem xSamples_bounds (q : ℚ) (hq : q ∈ xSamples) : -10 ≤ q ∧ q ≤ 10 := by
  rw [xSamples, List.mem_map] at hq
  obtain ⟨i, hi, rfl⟩ := hq
  rw [List.mem_range] at hi
  have h399 : (0 : ℚ) < 399 := by norm_num
  have hic : (i : ℚ) ≤ 399 := by exact_mod_cast Nat.le_of_lt_succ hi
  constructor
  · have hpos : (0 : ℚ) ≤ 20 * (i : ℚ) / 399 := by positivity
    linarith
  · have h2 : 20 * (i : ℚ) / 399 ≤ 20 := by
      rw [div_le_iff₀ h399]
      linarith
    linarith

/-- A successful plot renders the original expression over the sample
domain. -/
theorem plot_graph_renders (st : UIState) (e : Expr)
    (h : plotTypeError (SVal.one e) = false) :
    plot_graph st (SVal.one e) =
      { st with plot := some { points := xSamples.map (fun q => (q, evalQ e q)),
                               label := exprStr e } } := by
  simp [plot_graph, h]

/-- A plot evaluation type error writes the plotting-specific message and
renders nothing. -/
theorem plot_graph_error (st : UIState) (v : SVal)
    (h : plotTypeError v = true) :
    plot_graph st v =
      { st with solutionOutput := plotErrorMsg, plot := none } := by
  simp [plot_graph, h]

/-- An exception inside the system solver is caught there and surfaced with
the `"Error solving system: "` prefix. -/
theorem solve_system_catch (s msg : String)
    (h : solve_system_body s = .error msg) :
    solve_system s = "Error solving system: " ++ msg := by
  simp [solve_system, h]

/-- An empty linear-solve solution set makes the system solver report
"No solution found.". -/
theorem solve_system_no_solution (s : String) (es : List Expr)
    (rows : List (List Frac × Frac))
    (h1 : parseSegs (splitOnChar ',' s.data) = .ok es)
    (h2 : toRows (sortedVars es) es = .ok rows)
    (h3 : gaussSolve (sortedVars es).length rows = none) :
    solve_system s = "No solution found." := by
  simp [solve_system, solve_system_body, bind, Except.bind, h1, h2, h3]

/-- C1 (amended): exceptions raised by parsing or solving are caught and the
dispatcher returns normally — a failure of the top-level parse surfaces as
"Error: <message>", while an exception inside the system solver is caught
there and surfaces as "Error solving system: <message>" (a form that does
not begin with "Error: "). -/
theorem claim_c1_error_surfacing (st : UIState) (mode raw : String) :
    (∀ msg, ¬ pyStrip raw = "" → sympifyModel (pyStrip raw) = .error msg →
      (solve_equation st mode raw).1.solutionOutput = "Error: " ++ msg)
    ∧ (∀ s msg, solve_system_body s = .error msg →
        solve_system s = "Error solving system: " ++ msg) := by
  constructor
  · intro msg hne he
    rw [solveEq_sympify_error st mode raw msg hne he]
  · intro s msg h
    exact solve_system_catch s msg h

/-- C1 witness: the malformed input "((x" in Algebraic mode surfaces as an
"Error: " message. -/
theorem claim_c1_witness :
    (solve_equation UIState.init ("Algebraic Equation") ("((x")).1.solutionOutput =
      "Error: invalid syntax" :=
  (claim_c1_error_surfacing UIState.init ("Algebraic Equation") ("((x")).1
    ("invalid syntax") (by decide) rfl

/-- C1 counterexample: the System-mode input "x**2 + y, x - y" passes the
top-level parse, the exception then raised inside the system solver is
surfaced as "Error solving system: …", and the resulting display does not
begin with "Error: " — so not every caught exception has the claimed
"Error: <message>" form. -/
theorem claim_c1_counterexample :
    (solve_equation UIState.init ("System of Equations")
        ("x**2 + y, x - y")).1.solutionOutput =
      "Error solving system: nonlinear term encountered" ∧
    strStartsWith ((solve_equation UIState.init ("System of Equations")
        ("x**2 + y, x - y")).1.solutionOutput) ("Error: ") = false := by
  decide

/-- C2: the dispatcher sympifies the raw text before branching, so the
System-mode example "x + y = 5, x - y = 1" fails that parse on its "="
signs and displays an "Error: …" message instead of the claimed solution —
although the system solver itself, applied to the same text as the code
intends, does solve the system (at the engine's 15 significant digits). -/
theorem claim_c2_system_unreachable :
    strStartsWith ((solve_equation UIState.init ("System of Equations")
        ("x + y = 5, x - y = 1")).1.solutionOutput) ("Error: ") = true ∧
    (solve_equation UIState.init ("System of Equations")
        ("x + y = 5, x - y = 1")).1.solutionOutput ≠ "x = 3.0     y = 2.0" ∧
    solve_system ("x + y = 5, x - y = 1") =
      "x = 3.00000000000000     y = 2.00000000000000" := by
  decide

/-- C3 (amended): in Algebraic mode the dispatcher displays the engine's
roots through `format_step_solution`, which prints "Solutions:", a newline,
and then every root as "x{i} = {root}" followed by five spaces (the
separator also trails the last root). -/
theorem claim_c3_algebraic_format :
    (∀ (st : UIState) (raw : String) (e : Expr), ¬ pyStrip raw = "" →
      sympifyModel (pyStrip raw) = .ok (SVal.one e) →
      (solve_equation st ("Algebraic Equation") raw).1.solutionOutput =
        format_step_solution (solveModel e))
    ∧ (∀ sols, format_step_solution sols = "Solutions:\n" ++ enumSolutions 1 sols) := by
  constructor
  · intro st raw e hne hok
    rw [solveEq_algebraic st raw (SVal.one e) hne hok]
    rfl
  · exact format_step_solution_eq

/-- C3 witness: for "x**2 - 4" the displayed text is the full formatted list,
roots in ascending order. -/
theorem claim_c3_witness :
    (solve_equation UIState.init ("Algebraic Equation")
        ("x**2 - 4")).1.solutionOutput =
      "Solutions:\nx1 = -2     x2 = 2     " :=
  (claim_c3_algebraic_format.1 UIState.init ("x**2 - 4")
    (Expr.sub (Expr.pow (Expr.sym ("x")) (Expr.num 2)) (Expr.num 4))
    (by decide) rfl).trans (by decide)

/-- C3 counterexample: the display for "x**2 - 4" is neither
"x1 = -2     x2 = 2" nor its reverse — the code prepends "Solutions:" and a
newline and appends a trailing separator. -/
theorem claim_c3_counterexample :
    (solve_equation UIState.init ("Algebraic Equation")
        ("x**2 - 4")).1.solutionOutput ≠ "x1 = -2     x2 = 2" ∧
    (solve_equation UIState.init ("Algebraic Equation")
        ("x**2 - 4")).1.solutionOutput ≠ "x1 = 2     x2 = -2" := by
  decide

/-- C4 (amended): in Integration mode every parsable non-empty input is
integrated with respect to x and displayed as "âˆ«f(x) dx = <integral> + C"
— the integral-sign prefix appears as the three characters "âˆ«" because
the source literal on line 108 is double-encoded UTF-8 — and the engine is
asked for the integral and a plot of the original expression. -/
theorem claim_c4_integration_format (st : UIState) (raw : String) (e : Expr)
    (hne : ¬ pyStrip raw = "")
    (hok : sympifyModel (pyStrip raw) = .ok (SVal.one e)) :
    (solve_equation st ("Integration") raw).1.solutionOutput =
      "âˆ«f(x) dx = " ++ exprStr (integrateModel e) ++ " + C" ∧
    (solve_equation st ("Integration") raw).2 =
      [EngineCall.sympifyCall (pyStrip raw),
       EngineCall.integrateCall (SVal.one e), EngineCall.plotCall (SVal.one e)] := by
  rw [solveEq_integration st raw (SVal.one e) hne hok]
  exact ⟨rfl, rfl⟩

/-- C4 witness: integrating "2*x" displays the integral x**2 with the
source's (mojibake) prefix. -/
theorem claim_c4_witness :
    (solve_equation UIState.init ("Integration") ("2*x")).1.solutionOutput =
      "âˆ«f(x) dx = x**2 + C" :=
  ((claim_c4_integration_format UIState.init ("2*x")
    (Expr.mul (Expr.num 2) (Expr.sym ("x"))) (by decide) rfl).1).trans (by decide)

/-- C4 counterexample: the display for "2*x" is not the claimed
"∫f(x) dx = x**2 + C" with a true integral sign — the prefix the code
prints is the double-encoded "âˆ«". -/
theorem claim_c4_counterexample :
    (solve_equation UIState.init ("Integration") ("2*x")).1.solutionOutput ≠
      "∫f(x) dx = x**2 + C" ∧
    (solve_equation UIState.init ("Integration") ("2*x")).1.solutionOutput =
      "âˆ«f(x) dx = x**2 + C" := by
  decide

/-- C5: an empty submitted string makes every mode display the literal
prompt "Please enter an equation." and return with no engine, solver or
plot call and no other state change. -/
theorem claim_c5_empty_input (st : UIState) (mode : String) :
    solve_equation st mode ("") =
      ({ st with solutionOutput := "Please enter an equation." }, []) :=
  solveEq_empty st mode ("") rfl

/-- C6: in Differentiation mode every parsable non-empty input is
differentiated with respect to x and displayed as "f'(x) = <derivative>",
and the plot request carries the original parsed expression — every plot
call in the trace is for the original, never the derivative. -/
theorem claim_c6_differentiation (st : UIState) (raw : String) (e : Expr)
    (hne : ¬ pyStrip raw = "")
    (hok : sympifyModel (pyStrip raw) = .ok (SVal.one e)) :
    (solve_equation st ("Differentiation") raw).1.solutionOutput =
      "f'(x) = " ++ exprStr (diffE e) ∧
    (solve_equation st ("Differentiation") raw).2 =
      [EngineCall.sympifyCall (pyStrip raw), EngineCall.diffCall (SVal.one e),
       EngineCall.plotCall (SVal.one e)] ∧
    (∀ v, EngineCall.plotCall v ∈ (solve_equation st ("Differentiation") raw).2 →
      v = SVal.one e) := by
  rw [solveEq_diff st raw (SVal.one e) hne hok]
  refine ⟨rfl, rfl, ?_⟩
  intro v hv
  simp at hv
  exact hv

/-- C6 witness: differentiating "x**2" displays "f'(x) = 2*x". -/
theorem claim_c6_witness :
    (solve_equation UIState.init ("Differentiation") ("x**2")).1.solutionOutput =
      "f'(x) = 2*x" :=
  ((claim_c6_differentiation UIState.init ("x**2")
    (Expr.pow (Expr.sym ("x")) (Expr.num 2)) (by decide) rfl).1).trans (by decide)

/-- C7: in System mode the dispatcher displays exactly what the system
solver returns, and whenever the linear solve returns the empty solution
set the system solver returns exactly "No solution found.". -/
theorem claim_c7_no_solution :
    (∀ (st : UIState) (raw : String) (v : SVal), ¬ pyStrip raw = "" →
      sympifyModel (pyStrip raw) = .ok v →
      (solve_equation st ("System of Equations") raw).1.solutionOutput =
        solve_system (pyStrip raw))
    ∧ (∀ (s : String) (es : List Expr) (rows : List (List Frac × Frac)),
        parseSegs (splitOnChar ',' s.data) = .ok es →
        toRows (sortedVars es) es = .ok rows →
        gaussSolve (sortedVars es).length rows = none →
        solve_system s = "No solution found.") := by
  constructor
  · intro st raw v hne hok
    rw [solveEq_system st raw v hne hok]
  · intro s es rows h1 h2 h3
    exact solve_system_no_solution s es rows h1 h2 h3

/-- C7 witness: the inconsistent system of the spec, handed to the system
solver, reports "No solution found.". -/
theorem claim_c7_witness :
    solve_system ("x + y = 1, x + y = 2") = "No solution found." :=
  claim_c7_no_solution.2 ("x + y = 1, x + y = 2") _ _ rfl rfl rfl

/-- C8 (amended): a plot evaluation type error makes the plot collaborator
write the plotting-specific message into the solution display and render
nothing, but the dispatcher afterwards overwrites that display with the
solve result — the final output shows the solve result only, not the
plotting message. -/
theorem claim_c8_plot_error_overwritten :
    (∀ (st : UIState) (v : SVal), plotTypeError v = true →
      plot_graph st v = { st with solutionOutput := plotErrorMsg, plot := none })
    ∧ (∀ (st : UIState) (raw : String) (v : SVal), ¬ pyStrip raw = "" →
        sympifyModel (pyStrip raw) = .ok v →
        (solve_equation st ("Algebraic Equation") raw).1.solutionOutput =
          format_step_solution (solveS v) ∧
        (solve_equation st ("Differentiation") raw).1.solutionOutput =
          "f'(x) = " ++ svalStr (diffS v) ∧
        (solve_equation st ("Integration") raw).1.solutionOutput =
          "âˆ«f(x) dx = " ++ svalStr (integrateS v) ++ " + C") := by
  constructor
  · intro st v h
    exact plot_graph_error st v h
  · intro st raw v hne hok
    refine ⟨?_, ?_, ?_⟩
    · rw [solveEq_algebraic st raw v hne hok]
    · rw [solveEq_diff st raw v hne hok]
    · rw [solveEq_integration st raw v hne hok]

/-- C8 witness: for the expression "y", plotting raises the type error and
writes the plotting-specific message; the Differentiation dispatcher then
overwrites it with the solve result. -/
theorem claim_c8_witness :
    plot_graph UIState.init (SVal.one (Expr.sym ("y"))) =
      { UIState.init with solutionOutput := plotErrorMsg, plot := none } ∧
    (solve_equation UIState.init ("Differentiation") ("y")).1.solutionOutput =
      "f'(x) = 0" :=
  ⟨claim_c8_plot_error_overwritten.1 UIState.init (SVal.one (Expr.sym ("y")))
      (by decide),
   ((claim_c8_plot_error_overwritten.2 UIState.init ("y") (SVal.one (Expr.sym ("y")))
      (by decide) rfl).2.1).trans (by decide)⟩

/-- C8 counterexample: for Differentiation of "y" the plot evaluation raises
the type error, yet the final displayed output is the solve result
"f'(x) = 0" alone — the plotting-specific message is not part of the final
displayed output, contradicting the claim that the solve result is shown
separately from that message. -/
theorem claim_c8_counterexample :
    plotTypeError (SVal.one (Expr.sym ("y"))) = true ∧
    (solve_equation UIState.init ("Differentiation") ("y")).1 =
      { UIState.init with solutionOutput := "f'(x) = 0", plot := none } ∧
    "f'(x) = 0" ≠ plotErrorMsg := by
  decide

/-- C9: the renderer samples exactly 400 evenly spaced x-values in
[-10, 10] (closed form, even spacing 20/399, bounds) and renders the
original parsed expression evaluated at each of them; System mode issues
no plot call and leaves the plot untouched. -/
theorem claim_c9_plot_contract :
    xSamples.length = 400 ∧
    (∀ (i : ℕ) (h : i < xSamples.length),
      xSamples.get ⟨i, h⟩ = -10 + 20 * (i : ℚ) / 399) ∧
    (∀ (i : ℕ) (h1 : i + 1 < xSamples.length) (h2 : i < xSamples.length),
      xSamples.get ⟨i + 1, h1⟩ - xSamples.get ⟨i, h2⟩ = 20 / 399) ∧
    (∀ q ∈ xSamples, -10 ≤ q ∧ q ≤ 10) ∧
    (∀ (st : UIState) (e : Expr), plotTypeError (SVal.one e) = false →
      plot_graph st (SVal.one e) =
        { st with plot := some { points := xSamples.map (fun q => (q, evalQ e q)),
                                 label := exprStr e } }) ∧
    (∀ (st : UIState) (raw : String),
      ((solve_equation st ("System of Equations") raw).2.all
        (fun c => match c with | EngineCall.plotCall _ => false | _ => true)) = true ∧
      (solve_equation st ("System of Equations") raw).1.plot = st.plot) := by
  refine ⟨xSamples_length, xSamples_get, xSamples_spacing, xSamples_bounds,
    plot_graph_renders, ?_⟩
  intro st raw
  by_cases hs : pyStrip raw = ""
  · rw [solveEq_empty st ("System of Equations") raw hs]
    exact ⟨rfl, rfl⟩
  · cases hv : sympifyModel (pyStrip raw) with
    | error msg =>
      rw [solveEq_sympify_error st ("System of Equations") raw msg hs hv]
      exact ⟨rfl, rfl⟩
    | ok v =>
      rw [solveEq_system st raw v hs hv]
      exact ⟨rfl, rfl⟩

/-- C9 witness: the first two sample points are 20/399 apart, and plotting
"x" renders the sampled identity curve. -/
theorem claim_c9_witness :
    xSamples.get ⟨1, by decide⟩ - xSamples.get ⟨0, by decide⟩ = 20 / 399 ∧
    plot_graph UIState.init (SVal.one (Expr.sym ("x"))) =
      { UIState.init with
          plot := some { points := xSamples.map
                           (fun q => (q, evalQ (Expr.sym ("x")) q)),
                         label := "x" } } := by
  constructor
  · exact claim_c9_plot_contract.2.2.1 0 (by decide) (by decide)
  · exact claim_c9_plot_contract.2.2.2.2.1 UIState.init (Expr.sym ("x")) (by decide)

/-- C10: an input of only whitespace characters is stripped before the
non-emptiness check, so the dispatcher behaves exactly as on the empty
string: it displays "Please enter an equation." and makes no engine call. -/
theorem claim_c10_whitespace (st : UIState) (mode raw : String)
    (h : raw.data.all isPyWhitespace = true) :
    solve_equation st mode raw = solve_equation st mode ("") ∧
    solve_equation st mode raw =
      ({ st with solutionOutput := "Please enter an equation." }, []) := by
  have hs : pyStrip raw = "" := pyStrip_of_all_ws raw h
  constructor
  · rw [solveEq_empty st mode raw hs, solveEq_empty st mode ("") rfl]
  · exact solveEq_empty st mode raw hs

/-- C10 witness: three spaces behave as the empty input. -/
theorem claim_c10_witness :
    solve_equation UIState.init ("Integration") ("   ") =
      ({ UIState.init with solutionOutput := "Please enter an equation." }, []) :=
  (claim_c10_whitespace UIState.init ("Integration") ("   ") (by decide)).2

end MES
